import Mathlib

/-!
Verification of the iathumb thumbnail-generator core: the client-side
16:9 image normalizer, the generation-mode selection, and the two
request/response adapters around the remote image-generation service.

All definitions are shallow embeddings of the TypeScript source
(`src/unnamed/part_000`, the React `App` component, and
`src/services/geminiService.ts`).  JavaScript numbers on the crop path
are modelled as exact rationals (the source arithmetic on these inputs
is the symbolic formula the claims quote); remote responses are
modelled structurally with `Option` for fields that may be absent
(`undefined`/`null`), and thrown errors as `Except String`.
-/

namespace Iathumb

/-- `JavaScript String.prototype.includes`: does `pat` occur as a
contiguous substring of `s`?  Implemented on character lists. -/
def charsHavePrefix : List Char → List Char → Bool
  | [], _ => true
  | _ :: _, [] => false
  | a :: as, b :: bs => a == b && charsHavePrefix as bs

/-- Substring search on character lists, scanning left to right. -/
def charsInclude (pat : List Char) : List Char → Bool
  | [] => charsHavePrefix pat []
  | b :: bs => charsHavePrefix pat (b :: bs) || charsInclude pat bs

/-- `s.includes(pat)` from JavaScript. -/
def strIncludes (s pat : String) : Bool :=
  charsInclude pat.toList s.toList

/-- `JavaScript String.prototype.split` on a one-character separator,
on character lists, carrying the current field in an accumulator. -/
def jsSplitAux (sep : Char) : List Char → List Char → List (List Char)
  | acc, [] => [acc.reverse]
  | acc, c :: rest =>
      if c = sep then acc.reverse :: jsSplitAux sep [] rest
      else jsSplitAux sep (c :: acc) rest

/-- `s.split(sep)` from JavaScript. -/
def jsSplit (sep : Char) (l : List Char) : List (List Char) :=
  jsSplitAux sep [] l

/-- `s.trim()` from JavaScript: strip leading and trailing
whitespace. -/
def jsTrim (s : String) : String :=
  ⟨((s.toList.dropWhile Char.isWhitespace).reverse.dropWhile
      Char.isWhitespace).reverse⟩

/-! ## Image normalizer (`handleFileChange`, part_000 lines 37–66) -/

/-- `const targetAspectRatio = 16 / 9` (part_000 line 37). -/
def targetAspectRatio : ℚ := 16 / 9

/-- The source rectangle handed to `ctx.drawImage`: origin `(srcX, srcY)`
and size `srcWidth × srcHeight` inside the decoded source image. -/
structure CropRegion where
  srcX : ℚ
  srcY : ℚ
  srcWidth : ℚ
  srcHeight : ℚ
  deriving Repr, DecidableEq

/-- The crop computation of part_000 lines 39–55: start with the full
image, then shrink one dimension and center the origin depending on how
the source aspect ratio compares with 16/9. -/
def computeCrop (w h : ℚ) : CropRegion :=
  let currentAspectRatio := w / h
  if currentAspectRatio > targetAspectRatio then
    let srcWidth := h * targetAspectRatio
    { srcX := (w - srcWidth) / 2, srcY := 0, srcWidth := srcWidth, srcHeight := h }
  else if currentAspectRatio < targetAspectRatio then
    let srcHeight := w / targetAspectRatio
    { srcX := 0, srcY := (h - srcHeight) / 2, srcWidth := w, srcHeight := srcHeight }
  else
    { srcX := 0, srcY := 0, srcWidth := w, srcHeight := h }

/-- Result of the normalizer: the fixed output canvas carrying the crop
that was drawn onto it, plus the chosen encoding. -/
structure NormalizedImage where
  width : ℚ
  height : ℚ
  crop : CropRegion
  mimeType : String
  deriving Repr, DecidableEq

/-- part_000 lines 37–66: compute the center crop, draw it onto a fixed
1280×720 canvas (`canvas.width = 1280; canvas.height = 720`), and encode
as JPEG when the upload was JPEG, else PNG. -/
def normalize (w h : ℚ) (isJpeg : Bool) : NormalizedImage :=
  { width := 1280
    height := 720
    crop := computeCrop w h
    mimeType := if isJpeg then "image/jpeg" else "image/png" }

/-! ## Application state (`App`, part_000) -/

/-- The `referenceImage` state value: `{ data: string; mimeType: string }`. -/
structure RefImage where
  data : String
  mimeType : String
  deriving Repr, DecidableEq

/-- part_000 line 18: `dataUrl.split(',')[1]` — everything after the
first comma of a data URL. -/
def getBase64FromDataUrl (dataUrl : String) : String :=
  ⟨(jsSplit ',' dataUrl.toList).getD 1 []⟩

/-- The `useState` fields of the `App` component (part_000 lines 7–12)
that the claims are about. -/
structure AppState where
  prompt : String
  generatedImage : Option String
  referenceImage : Option RefImage
  referenceImagePreview : Option String
  isLoading : Bool
  error : Option String
  deriving Repr, DecidableEq

/-- How the asynchronous file load inside `handleFileChange` settles:
`reader.onerror`, `img.onerror`, a null canvas context, or a decoded
image drawn and re-encoded to the data URL `croppedDataUrl`. -/
inductive FileLoadOutcome where
  | readError
  | decodeError
  | noCanvasContext
  | decoded (isJpeg : Bool) (croppedDataUrl : String)
  deriving Repr, DecidableEq

/-- part_000 lines 20–84: the state updates `handleFileChange` performs
for each way the load settles.  Every failure branch only calls
`setError`; the success branch sets the preview and the reference image
(base64 payload of the re-encoded canvas, mime type JPEG iff the upload
was JPEG). -/
def handleFileChange (s : AppState) : FileLoadOutcome → AppState
  | .readError =>
      { s with error := some "Falha ao ler o arquivo selecionado." }
  | .decodeError =>
      { s with error := some "Falha ao carregar a imagem de referência. O arquivo pode estar corrompido ou em um formato não suportado." }
  | .noCanvasContext =>
      { s with error := some "Não foi possível processar a imagem. O contexto do canvas não está disponível." }
  | .decoded isJpeg croppedDataUrl =>
      let croppedMimeType := if isJpeg then "image/jpeg" else "image/png"
      { s with
        referenceImagePreview := some croppedDataUrl
        referenceImage := some
          { data := getBase64FromDataUrl croppedDataUrl
            mimeType := croppedMimeType } }

/-! ## Generation-mode selection (`handleGenerateClick`, part_000) -/

/-- Which remote operation `handleGenerateClick` invokes, with the
arguments it passes. -/
inductive GenCall where
  | textOnly (prompt : String)
  | withReference (prompt : String) (images : List RefImage)
  deriving Repr, DecidableEq

/-- part_000 lines 126–140: when `isEditing` (a generated image exists)
call the reference operation with the prior image first (base64 of its
data URL, mime type hard-coded to `image/png`) and the user reference
appended when present; otherwise use the reference operation when a
user reference exists, else the text operation. -/
def selectGeneration (generatedImage : Option String)
    (referenceImage : Option RefImage) (prompt : String) : GenCall :=
  match generatedImage with
  | some g =>
      let prior : RefImage :=
        { data := getBase64FromDataUrl g, mimeType := "image/png" }
      let imagesForApi :=
        match referenceImage with
        | some r => [prior, r]
        | none => [prior]
      .withReference prompt imagesForApi
  | none =>
      match referenceImage with
      | some r => .withReference prompt [r]
      | none => .textOnly prompt

/-- The synchronous prefix of `handleGenerateClick` (part_000 lines
112–124): trim the prompt; on an empty trim set an error and return
without any remote call (`none`); otherwise set loading, clear the
error, clear the generated image when not editing, and produce the
remote call to make. -/
def handleGenerateStart (s : AppState) : AppState × Option GenCall :=
  let currentPrompt := jsTrim s.prompt
  let isEditing := s.generatedImage.isSome
  if currentPrompt = "" then
    ({ s with error := some (if isEditing then "Por favor, descreva o ajuste desejado." else "Por favor, insira uma descrição para a thumbnail.") }, none)
  else
    ({ s with
        isLoading := true
        error := none
        generatedImage := if isEditing then s.generatedImage else none },
      some (selectGeneration s.generatedImage s.referenceImage currentPrompt))

/-- How the awaited remote call settles: the base64 image it returned,
or the message of the error it threw. -/
inductive GenOutcome where
  | success (newBase64Image : String)
  | failure (message : String)
  deriving Repr, DecidableEq

/-- part_000 lines 141–150: on success store the new image as a PNG data
URL and clear the prompt when the call was a refinement (`isEditing`
captured at click time); on failure set the error message; either way
loading ends. -/
def applyOutcome (isEditing : Bool) (outcome : GenOutcome)
    (s : AppState) : AppState :=
  match outcome with
  | .success b =>
      { s with
        generatedImage := some ("data:image/png;base64," ++ b)
        prompt := if isEditing then "" else s.prompt
        isLoading := false }
  | .failure msg =>
      { s with error := some msg, isLoading := false }

/-- One whole run of `handleGenerateClick`: the synchronous prefix, then
— only when a remote call was issued — the completion with the call's
outcome. -/
def handleGenerateRun (s : AppState) (outcome : GenOutcome) : AppState :=
  match handleGenerateStart s with
  | (s1, none) => s1
  | (s1, some _) => applyOutcome s.generatedImage.isSome outcome s1

/-! ## Generation client (`src/services/geminiService.ts`) -/

/-- The quota message thrown when the failure message matches a
rate-limit marker (geminiService lines 42 and 102). -/
def rateLimitMessage : String :=
  "Você atingiu o limite de requisições (quota). Por favor, aguarde um minuto e tente novamente."

/-- The `catch` block of `generateImageWithText` (lines 38–47) applied
to the message of a caught `Error`: rate-limit markers map to the quota
message, anything else is wrapped with a failure prefix. -/
def generateImageWithTextCatch (message : String) : String :=
  if strIncludes message "429" || strIncludes message "RESOURCE_EXHAUSTED" then
    rateLimitMessage
  else
    "Falha ao gerar imagem: " ++ message

/-- The `catch` block of `generateImageWithReference` (lines 98–107)
applied to the message of a caught `Error`. -/
def generateImageWithReferenceCatch (message : String) : String :=
  if strIncludes message "429" || strIncludes message "RESOURCE_EXHAUSTED" then
    rateLimitMessage
  else
    "Falha ao gerar/editar imagem com referência: " ++ message

/-- `response.generatedImages[i].image` of the Imagen response; an
empty `imageBytes` models a missing or empty payload (falsy). -/
structure ImagePayload where
  imageBytes : String
  deriving Repr, DecidableEq

/-- One element of `response.generatedImages`. -/
structure GeneratedImage where
  image : ImagePayload
  deriving Repr, DecidableEq

/-- The Imagen response shape `generateImageWithText` inspects;
`none` models an absent `generatedImages` field. -/
structure GenerateImagesResponse where
  generatedImages : Option (List GeneratedImage)
  deriving Repr, DecidableEq

/-- The `try` body of `generateImageWithText` (lines 26–36) after the
remote call returned: empty result list (or absent field) and empty
payload throw, otherwise the base64 bytes are returned. -/
def parseTextResponse (r : GenerateImagesResponse) : Except String String :=
  match r.generatedImages with
  | none => .error "A API não retornou nenhuma imagem."
  | some [] => .error "A API não retornou nenhuma imagem."
  | some (g :: _) =>
      if g.image.imageBytes = "" then
        .error "Os dados da imagem recebidos estão vazios."
      else
        .ok g.image.imageBytes

/-- `generateImageWithText` end to end on a delivered response: the
`try` body, with every thrown error routed through the `catch` block. -/
def generateImageWithTextResult (r : GenerateImagesResponse) :
    Except String String :=
  match parseTextResponse r with
  | .ok b => .ok b
  | .error m => .error (generateImageWithTextCatch m)

/-- `part.inlineData` of a Gemini content part. -/
structure InlineData where
  data : String
  mimeType : String
  deriving Repr, DecidableEq

/-- One element of `candidate.content.parts`; `inlineData` is absent on
text parts. -/
structure ContentPart where
  inlineData : Option InlineData
  text : Option String
  deriving Repr, DecidableEq

/-- `candidate.content`; `parts` may be absent. -/
structure CandidateContent where
  parts : Option (List ContentPart)
  deriving Repr, DecidableEq

/-- One element of `response.candidates`. -/
structure Candidate where
  content : Option CandidateContent
  finishReason : Option String
  deriving Repr, DecidableEq

/-- The Gemini response shape `generateImageWithReference` inspects. -/
structure GenContentResponse where
  candidates : Option (List Candidate)
  deriving Repr, DecidableEq

/-- geminiService lines 90–94: scan the parts in order and return the
payload of the first one whose `inlineData.mimeType` starts with
`image/`. -/
def findImagePart : List ContentPart → Option String
  | [] => none
  | p :: rest =>
      match p.inlineData with
      | some d =>
          if d.mimeType.startsWith "image/" then some d.data
          else findImagePart rest
      | none => findImagePart rest

/-- geminiService lines 84–87: the error thrown when candidate, content
or parts is missing — the finish reason message only when a finish
reason is present, truthy (non-empty) and not `STOP`, else the generic
blocked-or-missing message. -/
def missingContentMessage (candidate : Option Candidate) : String :=
  match candidate with
  | some c =>
      match c.finishReason with
      | some fr =>
          if fr ≠ "" ∧ fr ≠ "STOP" then
            "A geração da imagem foi interrompida. Motivo: " ++ fr
          else
            "A resposta da API não continha o conteúdo esperado ou foi bloqueada."
      | none => "A resposta da API não continha o conteúdo esperado ou foi bloqueada."
  | none => "A resposta da API não continha o conteúdo esperado ou foi bloqueada."

/-- The `try` body of `generateImageWithReference` (lines 80–96) after
the remote call returned: take the first candidate
(`response.candidates?.[0]`); when candidate, content or the parts
field is missing, throw via `missingContentMessage`; otherwise return
the first image part, or throw the unexpected-format error when the
parts hold none. -/
def parseReferenceResponse (r : GenContentResponse) : Except String String :=
  match (r.candidates.getD []).head? with
  | none => .error (missingContentMessage none)
  | some c =>
      match c.content with
      | none => .error (missingContentMessage (some c))
      | some content =>
          match content.parts with
          | none => .error (missingContentMessage (some c))
          | some parts =>
              match findImagePart parts with
              | some d => .ok d
              | none => .error "A API não retornou uma imagem no formato esperado."

/-- `generateImageWithReference` end to end on a delivered response:
the `try` body with every thrown error routed through the `catch`
block. -/
def generateImageWithReferenceResult (r : GenContentResponse) :
    Except String String :=
  match parseReferenceResponse r with
  | .ok d => .ok d
  | .error m => .error (generateImageWithReferenceCatch m)

/-- The fixed instruction block prepended to the user prompt
(geminiService line 62); the enhanced prompt is this followed by the
user prompt. -/
def enhancedPromptPrefix : String :=
  "The final output image MUST have a 16:9 aspect ratio, perfect for a YouTube thumbnail. IMPORTANT: Ignore the aspect ratio of any reference images provided. Now, fulfill this request: "

/-- One ordered content part of the outgoing Gemini request. -/
inductive RequestPart where
  | inlineData (data : String) (mimeType : String)
  | text (t : String)
  deriving Repr, DecidableEq

/-- geminiService lines 62–74: the `contents.parts` array sent to the
reference-guided operation — each reference image as inline data in
order, then a single text part holding the enhanced prompt. -/
def buildReferenceRequestParts (prompt : String)
    (images : List RefImage) : List RequestPart :=
  images.map (fun image => RequestPart.inlineData image.data image.mimeType)
    ++ [RequestPart.text (enhancedPromptPrefix ++ prompt)]

end Iathumb

namespace Iathumb

/-- C1: the normalizer's crop region is the piecewise center crop the
spec states — full height with width `H·(16/9)` at `((W − H·16/9)/2, 0)`
when the source is wider than 16:9, full width with height `W·(9/16)` at
`(0, (H − W·9/16)/2)` when taller, the full image when exactly 16:9 —
and in every case the output canvas is exactly 1280×720, a 16:9 ratio. -/
theorem normalize_crop_piecewise (w h : ℚ) (isJpeg : Bool)
    (hw : 0 < w) (hh : 0 < h) :
    (w / h > 16 / 9 →
      (normalize w h isJpeg).crop =
        ⟨(w - h * (16 / 9)) / 2, 0, h * (16 / 9), h⟩) ∧
    (w / h < 16 / 9 →
      (normalize w h isJpeg).crop =
        ⟨0, (h - w * (9 / 16)) / 2, w, w * (9 / 16)⟩) ∧
    (w / h = 16 / 9 →
      (normalize w h isJpeg).crop = ⟨0, 0, w, h⟩) ∧
    (normalize w h isJpeg).width = 1280 ∧
    (normalize w h isJpeg).height = 720 ∧
    (normalize w h isJpeg).width / (normalize w h isJpeg).height = 16 / 9 := by
  refine ⟨?_, ?_, ?_, rfl, rfl, by norm_num [normalize]⟩
  · intro hgt
    simp only [normalize, computeCrop, targetAspectRatio]
    rw [if_pos hgt]
  · intro hlt
    have hne : ¬ (w / h > (16 : ℚ) / 9) := by linarith
    simp only [normalize, computeCrop, targetAspectRatio]
    rw [if_neg hne, if_pos hlt]
    have : w / ((16 : ℚ) / 9) = w * (9 / 16) := by ring
    rw [this]
  · intro heq
    have h1 : ¬ (w / h > (16 : ℚ) / 9) := by rw [heq]; simp
    have h2 : ¬ (w / h < (16 : ℚ) / 9) := by rw [heq]; simp
    simp only [normalize, computeCrop, targetAspectRatio]
    rw [if_neg h1, if_neg h2]

/-- Witness for `normalize_crop_piecewise` at the wider-than-16:9 input
`W = 32, H = 9`: the hypotheses hold and the crop keeps full height. -/
theorem normalize_crop_piecewise_wit :
    0 < (32 : ℚ) ∧ 0 < (9 : ℚ) ∧
    (32 : ℚ) / 9 > 16 / 9 ∧
    (normalize 32 9 false).crop = ⟨8, 0, 16, 9⟩ := by
  have h := normalize_crop_piecewise 32 9 false (by norm_num) (by norm_num)
  refine ⟨by norm_num, by norm_num, by norm_num, ?_⟩
  have hc := h.1 (by norm_num)
  rw [hc]
  norm_num

/-- C2: the click handler calls the text-only operation exactly when no
prior generated image and no user reference exist; with a prior image
`P` the reference operation receives `[P]` or `[P, R]` in that order,
`P` carried as the base64 of its data URL under the fixed mime type
`image/png`; with only a user reference `R` it receives `[R]`. -/
theorem selectGeneration_modes (gen : Option String)
    (ref : Option RefImage) (p : String) :
    (selectGeneration gen ref p = GenCall.textOnly p ↔
      gen = none ∧ ref = none) ∧
    (∀ g, gen = some g → ref = none →
      selectGeneration gen ref p =
        .withReference p [⟨getBase64FromDataUrl g, "image/png"⟩]) ∧
    (∀ g r, gen = some g → ref = some r →
      selectGeneration gen ref p =
        .withReference p [⟨getBase64FromDataUrl g, "image/png"⟩, r]) ∧
    (∀ r, gen = none → ref = some r →
      selectGeneration gen ref p = .withReference p [r]) := by
  cases gen <;> cases ref <;> simp [selectGeneration]

/-- Witness for `selectGeneration_modes`: with a prior generated image
and a user reference both present, the request images are the prior
PNG followed by the reference. -/
theorem selectGeneration_modes_wit :
    selectGeneration (some "data:image/png;base64,PRIOR")
        (some ⟨"REF", "image/jpeg"⟩) "add a cat" =
      .withReference "add a cat"
        [⟨"PRIOR", "image/png"⟩, ⟨"REF", "image/jpeg"⟩] := by
  have h := (selectGeneration_modes (some "data:image/png;base64,PRIOR")
    (some ⟨"REF", "image/jpeg"⟩) "add a cat").2.2.1
    "data:image/png;base64,PRIOR" ⟨"REF", "image/jpeg"⟩ rfl rfl
  rw [h]
  decide

/-- C4: a caught failure whose message contains `RESOURCE_EXHAUSTED` or
`429` is re-raised by both catch blocks as the specific rate-limit
(quota) message telling the user to wait and retry, which is not either
generic unknown-failure message. -/
theorem rateLimit_classified (message : String)
    (h : strIncludes message "RESOURCE_EXHAUSTED" = true ∨
         strIncludes message "429" = true) :
    generateImageWithTextCatch message = rateLimitMessage ∧
    generateImageWithReferenceCatch message = rateLimitMessage ∧
    rateLimitMessage ≠ "Um erro inesperado ocorreu durante a geração da imagem." ∧
    rateLimitMessage ≠ "Um erro inesperado ocorreu durante a geração/edição da imagem." := by
  have hb : (strIncludes message "429" ||
      strIncludes message "RESOURCE_EXHAUSTED") = true := by
    rcases h with h | h <;> simp [h]
  refine ⟨?_, ?_, by decide, by decide⟩ <;>
    simp [generateImageWithTextCatch, generateImageWithReferenceCatch, hb]

/-- Witness for `rateLimit_classified` on a message carrying the
`RESOURCE_EXHAUSTED` marker. -/
theorem rateLimit_classified_wit :
    strIncludes "got error RESOURCE_EXHAUSTED from upstream" "RESOURCE_EXHAUSTED" = true ∧
    generateImageWithTextCatch "got error RESOURCE_EXHAUSTED from upstream" = rateLimitMessage := by
  refine ⟨by decide, ?_⟩
  exact (rateLimit_classified "got error RESOURCE_EXHAUSTED from upstream"
    (Or.inl (by decide))).1

/-- C5: when the prompt trims to the empty string, the click handler
sets a user-facing error and issues no remote call at all. -/
theorem emptyPrompt_no_remote_call (s : AppState) (h : jsTrim s.prompt = "") :
    (handleGenerateStart s).2 = none ∧
    (handleGenerateStart s).1.error =
      some (if s.generatedImage.isSome then "Por favor, descreva o ajuste desejado."
            else "Por favor, insira uma descrição para a thumbnail.") := by
  simp [handleGenerateStart, h]

/-- Witness for `emptyPrompt_no_remote_call` on a whitespace-only
prompt. -/
theorem emptyPrompt_no_remote_call_wit :
    jsTrim "   " = "" ∧
    (handleGenerateStart ⟨"   ", none, none, none, false, none⟩).2 = none := by
  refine ⟨by decide, ?_⟩
  exact (emptyPrompt_no_remote_call ⟨"   ", none, none, none, false, none⟩
    (by decide)).1

/-- C9: every failure branch of `handleFileChange` (reader error,
image decode error, missing canvas context) sets only the error
message; prompt, generated image, reference image, its preview and the
loading flag are all unchanged. -/
theorem fileChange_failure_frame (s : AppState) (o : FileLoadOutcome)
    (h : o = .readError ∨ o = .decodeError ∨ o = .noCanvasContext) :
    (handleFileChange s o).prompt = s.prompt ∧
    (handleFileChange s o).generatedImage = s.generatedImage ∧
    (handleFileChange s o).referenceImage = s.referenceImage ∧
    (handleFileChange s o).referenceImagePreview = s.referenceImagePreview ∧
    (handleFileChange s o).isLoading = s.isLoading ∧
    ∃ m, (handleFileChange s o).error = some m := by
  rcases h with h | h | h <;> subst h <;> simp [handleFileChange]

/-- Witness for `fileChange_failure_frame`: a decode failure leaves a
previously set reference image in place. -/
theorem fileChange_failure_frame_wit :
    (handleFileChange
        ⟨"p", some "img", some ⟨"R", "image/png"⟩, some "prev", false, none⟩
        .decodeError).referenceImage = some ⟨"R", "image/png"⟩ := by
  exact (fileChange_failure_frame
    ⟨"p", some "img", some ⟨"R", "image/png"⟩, some "prev", false, none⟩
    .decodeError (Or.inr (Or.inl rfl))).2.2.1

/-- C10: a refinement run (prior image present, non-empty trimmed
prompt) resets the prompt to the empty string on success while leaving
the user reference unchanged — so a subsequent refinement still sends
that reference, appended after the new prior image — and leaves the
prompt unchanged on failure. -/
theorem refinement_prompt_reset (s : AppState) (g : String)
    (hg : s.generatedImage = some g) (hp : ¬ jsTrim s.prompt = "") :
    (∀ b, (handleGenerateRun s (.success b)).prompt = "" ∧
      (handleGenerateRun s (.success b)).referenceImage = s.referenceImage) ∧
    (∀ b r p2, s.referenceImage = some r → ¬ jsTrim p2 = "" →
      ∃ prior,
        (handleGenerateStart
          { handleGenerateRun s (.success b) with prompt := p2 }).2 =
        some (.withReference (jsTrim p2) [prior, r])) ∧
    (∀ m, (handleGenerateRun s (.failure m)).prompt = s.prompt) := by
  refine ⟨?_, ?_, ?_⟩
  · intro b
    simp [handleGenerateRun, handleGenerateStart, hp, hg, applyOutcome]
  · intro b r p2 hr hp2
    refine ⟨⟨getBase64FromDataUrl ("data:image/png;base64," ++ b), "image/png"⟩, ?_⟩
    simp [handleGenerateRun, handleGenerateStart, hp, hg, hp2, applyOutcome,
      selectGeneration, hr]
  · intro m
    simp [handleGenerateRun, handleGenerateStart, hp, hg, applyOutcome]

/-- Witness for `refinement_prompt_reset`: a concrete refinement with a
user reference set; success clears the prompt. -/
theorem refinement_prompt_reset_wit :
    (⟨"make it blue", some "data:image/png;base64,OLD",
        some ⟨"R", "image/jpeg"⟩, some "prev", false, none⟩ : AppState).generatedImage =
      some "data:image/png;base64,OLD" ∧
    ¬ jsTrim "make it blue" = "" ∧
    (handleGenerateRun
        ⟨"make it blue", some "data:image/png;base64,OLD",
          some ⟨"R", "image/jpeg"⟩, some "prev", false, none⟩
        (.success "NEW")).prompt = "" := by
  refine ⟨rfl, by decide, ?_⟩
  exact ((refinement_prompt_reset
    ⟨"make it blue", some "data:image/png;base64,OLD",
      some ⟨"R", "image/jpeg"⟩, some "prev", false, none⟩
    "data:image/png;base64,OLD" rfl (by decide)).1 "NEW").1

/-- C3 counterexample: a response whose parts array is present but
holds no image part, with finish reason `SAFETY`, produces the
(wrapped) generic unexpected-format error, whose message does not
mention `SAFETY` — the finish reason is only consulted when the parts
field itself is missing. -/
theorem safety_reason_counterexample :
    generateImageWithReferenceResult
        ⟨some [⟨some ⟨some []⟩, some "SAFETY"⟩]⟩ =
      .error "Falha ao gerar/editar imagem com referência: A API não retornou uma imagem no formato esperado." ∧
    strIncludes "Falha ao gerar/editar imagem com referência: A API não retornou uma imagem no formato esperado."
      "SAFETY" = false := by
  constructor
  · rfl
  · decide

/-- C3 amended: when the first candidate exists with finish reason
`SAFETY` but its content or its parts *field* is missing, the raised
error message mentions `SAFETY` (inside the wrapping prefix) and is not
the generic missing-content message; when parts are present without an
image part the generic format error is raised instead (see the
counterexample). -/
theorem safety_reason_reported (r : GenContentResponse) (c : Candidate)
    (hc : (r.candidates.getD []).head? = some c)
    (hfr : c.finishReason = some "SAFETY")
    (hmiss : c.content = none ∨
      ∃ ct, c.content = some ct ∧ ct.parts = none) :
    generateImageWithReferenceResult r =
      .error "Falha ao gerar/editar imagem com referência: A geração da imagem foi interrompida. Motivo: SAFETY" ∧
    strIncludes "Falha ao gerar/editar imagem com referência: A geração da imagem foi interrompida. Motivo: SAFETY"
      "SAFETY" = true ∧
    ("Falha ao gerar/editar imagem com referência: A geração da imagem foi interrompida. Motivo: SAFETY" : String) ≠
      "Falha ao gerar/editar imagem com referência: A resposta da API não continha o conteúdo esperado ou foi bloqueada." := by
  have hmsg : missingContentMessage (some c) =
      "A geração da imagem foi interrompida. Motivo: SAFETY" := by
    simp only [missingContentMessage, hfr]
    rw [if_pos (by decide)]
    decide
  have hwrap : generateImageWithReferenceCatch
      "A geração da imagem foi interrompida. Motivo: SAFETY" =
      "Falha ao gerar/editar imagem com referência: A geração da imagem foi interrompida. Motivo: SAFETY" := by
    decide
  refine ⟨?_, by decide, by decide⟩
  rcases hmiss with hnone | ⟨ct, hct, hparts⟩
  · simp [generateImageWithReferenceResult, parseReferenceResponse, hc,
      hnone, hmsg, hwrap]
  · simp [generateImageWithReferenceResult, parseReferenceResponse, hc,
      hct, hparts, hmsg, hwrap]

/-- Witness for `safety_reason_reported`: a response whose only
candidate has no content and finish reason `SAFETY`. -/
theorem safety_reason_reported_wit :
    ((⟨some [⟨none, some "SAFETY"⟩]⟩ : GenContentResponse).candidates.getD []).head? =
      some ⟨none, some "SAFETY"⟩ ∧
    generateImageWithReferenceResult ⟨some [⟨none, some "SAFETY"⟩]⟩ =
      .error "Falha ao gerar/editar imagem com referência: A geração da imagem foi interrompida. Motivo: SAFETY" := by
  refine ⟨rfl, ?_⟩
  exact (safety_reason_reported ⟨some [⟨none, some "SAFETY"⟩]⟩
    ⟨none, some "SAFETY"⟩ rfl rfl (Or.inl rfl)).1

/-- C6: the outgoing reference-guided request holds exactly the
reference images as inline-data parts, in the given order, followed by
a single final text part carrying the fixed 16:9 instruction block with
the prompt appended. -/
theorem referenceRequest_parts (prompt : String) (images : List RefImage)
    (hne : images ≠ []) :
    (buildReferenceRequestParts prompt images).length = images.length + 1 ∧
    (∀ i, i < images.length →
      (buildReferenceRequestParts prompt images)[i]? =
        (images[i]?).map
          (fun image => RequestPart.inlineData image.data image.mimeType)) ∧
    (buildReferenceRequestParts prompt images).getLast? =
      some (.text (enhancedPromptPrefix ++ prompt)) := by
  refine ⟨by simp [buildReferenceRequestParts], ?_, ?_⟩
  · intro i hi
    rw [buildReferenceRequestParts, List.getElem?_append_left (by simpa using hi),
      List.getElem?_map]
  · simp [buildReferenceRequestParts]

/-- Witness for `referenceRequest_parts` on a single reference image:
the request is the image part followed by the enhanced-prompt text
part. -/
theorem referenceRequest_parts_wit :
    ([⟨"D1", "image/png"⟩] : List RefImage) ≠ [] ∧
    (buildReferenceRequestParts "a cat" [⟨"D1", "image/png"⟩]).length = 2 := by
  refine ⟨by decide, ?_⟩
  exact (referenceRequest_parts "a cat" [⟨"D1", "image/png"⟩]
    (by decide)).1

/-- C7: re-normalizing the normalizer's own output keeps the 1280×720
dimensions, and — because 1280/720 is exactly 16/9 — the second
application takes the else branch and crops nothing: its crop region is
the full 1280×720 input. -/
theorem normalize_idempotent_dims (w h : ℚ) (j j2 : Bool) :
    (normalize (normalize w h j).width (normalize w h j).height j2).width = 1280 ∧
    (normalize (normalize w h j).width (normalize w h j).height j2).height = 720 ∧
    (normalize (normalize w h j).width (normalize w h j).height j2).crop =
      ⟨0, 0, (normalize w h j).width, (normalize w h j).height⟩ := by
  refine ⟨rfl, rfl, ?_⟩
  show computeCrop 1280 720 = ({ srcX := 0, srcY := 0, srcWidth := 1280, srcHeight := 720 } : CropRegion)
  norm_num [computeCrop, targetAspectRatio]

/-- C8 counterexample: an empty result set makes
`generateImageWithText` surface the empty-result message wrapped with
the failure prefix, not verbatim. -/
theorem emptyResult_not_verbatim :
    generateImageWithTextResult ⟨some []⟩ =
      .error "Falha ao gerar imagem: A API não retornou nenhuma imagem." ∧
    ("Falha ao gerar imagem: A API não retornou nenhuma imagem." : String) ≠
      "A API não retornou nenhuma imagem." := by
  constructor
  · rfl
  · decide

/-- C8 amended: zero generated images (or an absent list) and an empty
byte payload each raise their specific message, delivered to the caller
with the fixed prefix `Falha ao gerar imagem: ` prepended by the catch
block rather than verbatim. -/
theorem emptyResult_wrapped (r : GenerateImagesResponse) :
    ((r.generatedImages = none ∨ r.generatedImages = some []) →
      generateImageWithTextResult r =
        .error ("Falha ao gerar imagem: " ++ "A API não retornou nenhuma imagem.")) ∧
    (∀ g rest, r.generatedImages = some (g :: rest) →
      g.image.imageBytes = "" →
      generateImageWithTextResult r =
        .error ("Falha ao gerar imagem: " ++ "Os dados da imagem recebidos estão vazios.")) := by
  have h1 : generateImageWithTextCatch "A API não retornou nenhuma imagem." =
      "Falha ao gerar imagem: " ++ "A API não retornou nenhuma imagem." := by
    decide
  have h2 : generateImageWithTextCatch "Os dados da imagem recebidos estão vazios." =
      "Falha ao gerar imagem: " ++ "Os dados da imagem recebidos estão vazios." := by
    decide
  constructor
  · rintro (h | h) <;>
      simp [generateImageWithTextResult, parseTextResponse, h, h1]
  · rintro g rest h hempty
    simp [generateImageWithTextResult, parseTextResponse, h, hempty, h2]

/-- Witness for `emptyResult_wrapped` on the empty result list. -/
theorem emptyResult_wrapped_wit :
    ((⟨some []⟩ : GenerateImagesResponse).generatedImages = none ∨
      (⟨some []⟩ : GenerateImagesResponse).generatedImages = some []) ∧
    generateImageWithTextResult ⟨some []⟩ =
      .error ("Falha ao gerar imagem: " ++ "A API não retornou nenhuma imagem.") := by
  refine ⟨Or.inr rfl, ?_⟩
  exact (emptyResult_wrapped ⟨some []⟩).1 (Or.inr rfl)

end Iathumb
